import Mathlib

/-!
Shallow embedding of the spotify-libre-scrobbler repository (sls.py and
scrobble.py): timestamp parsing, track normalization, the pagination loop,
the scrobble submission/re-authorization loop, and the unsent-batch spill.
-/

/-! ## Calendar arithmetic (proleptic Gregorian, as used by datetime) -/

def isLeapYear (y : Nat) : Bool :=
  y % 4 == 0 && (y % 100 != 0 || y % 400 == 0)

def daysInMonth (y m : Nat) : Nat :=
  if m = 2 then (if isLeapYear y then 29 else 28)
  else if m = 4 ∨ m = 6 ∨ m = 9 ∨ m = 11 then 30
  else 31

def daysBeforeMonth (y m : Nat) : Nat :=
  (List.range (m - 1)).foldl (fun a i => a + daysInMonth y (i + 1)) 0

def toOrdinal (y m d : Nat) : Nat :=
  let py := y - 1
  365 * py + py / 4 - py / 100 + py / 400 + daysBeforeMonth y m + d

/-! ## strptime with the fixed format of sls.py line 131 / scrobble.py line 44:
the pattern with 4-digit year, dash, month, dash, day, literal T, hour,
colon, minute, colon, second, dot, fractional seconds, numeric UTC offset. -/

def digitVal (c : Char) : Option Nat :=
  if c.isDigit then some (c.toNat - 48) else none

def takeDigitsAux : Nat → Nat → List Char → Option (Nat × List Char)
  | 0, acc, cs => some (acc, cs)
  | n + 1, acc, c :: cs =>
    match digitVal c with
    | some d => takeDigitsAux n (acc * 10 + d) cs
    | none => none
  | _ + 1, _, [] => none

/-- Numeric field of one or two digits with a value range, mirroring the
greedy-with-backtracking behaviour of the strptime field patterns. -/
def takeNum2 (lo hi : Nat) : List Char → Option (Nat × List Char)
  | c1 :: c2 :: rest =>
    match digitVal c1, digitVal c2 with
    | some d1, some d2 =>
      let v := d1 * 10 + d2
      if lo ≤ v ∧ v ≤ hi then some (v, rest)
      else if lo ≤ d1 ∧ d1 ≤ hi then some (d1, c2 :: rest)
      else none
    | some d1, none =>
      if lo ≤ d1 ∧ d1 ≤ hi then some (d1, c2 :: rest) else none
    | none, _ => none
  | [c1] =>
    match digitVal c1 with
    | some d1 => if lo ≤ d1 ∧ d1 ≤ hi then some (d1, []) else none
    | none => none
  | [] => none

def expectChar (c : Char) : List Char → Option (List Char)
  | x :: r => if x = c then some r else none
  | [] => none

/-- The strptime regex is case-insensitive, so the literal T also matches t. -/
def expectT : List Char → Option (List Char)
  | x :: r => if x = 'T' ∨ x = 't' then some r else none
  | [] => none

def takeMicroAux : Nat → Nat → Nat → List Char → Nat × Nat × List Char
  | 0, acc, k, cs => (acc, k, cs)
  | _ + 1, acc, k, [] => (acc, k, [])
  | n + 1, acc, k, c :: cs =>
    match digitVal c with
    | some d => takeMicroAux n (acc * 10 + d) (k + 1) cs
    | none => (acc, k, c :: cs)

/-- Fractional seconds: one to six digits, right-padded to microseconds. -/
def takeMicro (cs : List Char) : Option (Nat × List Char) :=
  match takeMicroAux 6 0 0 cs with
  | (acc, k, rest) => if k = 0 then none else some (acc * 10 ^ (6 - k), rest)

/-- Optional seconds part of a numeric UTC offset: optional colon then two
digits with first digit 0-5; on no match the group is skipped. -/
def offSeconds (cs : List Char) : Nat × List Char :=
  match cs with
  | ':' :: r =>
    (match takeDigitsAux 2 0 r with
     | some (s2, r2) => if s2 ≤ 59 then (s2, r2) else (0, cs)
     | none => (0, cs))
  | r =>
    (match takeDigitsAux 2 0 r with
     | some (s2, r2) => if s2 ≤ 59 then (s2, r2) else (0, cs)
     | none => (0, cs))

/-- Numeric UTC offset: sign, two-digit hours, optional colon, two-digit
minutes below 60, optional seconds, or the literal Z meaning UTC; the
resulting offset must be strictly below one day in magnitude. -/
def parseOffset : List Char → Option (Int × List Char)
  | 'Z' :: rest => some (0, rest)
  | c :: rest =>
    if c = '+' ∨ c = '-' then
      match takeDigitsAux 2 0 rest with
      | some (hh, r1) =>
        let r1c := match r1 with
          | ':' :: r => r
          | r => r
        match takeDigitsAux 2 0 r1c with
        | some (mm, r2) =>
          if mm ≤ 59 then
            let sr := offSeconds r2
            let total : Int := Int.ofNat (hh * 3600 + mm * 60 + sr.1)
            if total < 86400 then
              some (if c = '-' then -total else total, sr.2)
            else none
          else none
        | none => none
      | none => none
    else none
  | [] => none

structure ParsedDT where
  year : Nat
  month : Nat
  day : Nat
  hour : Nat
  minute : Nat
  second : Nat
  micro : Nat
  offset : Int
deriving DecidableEq

def parseFields (cs : List Char) : Option ParsedDT := do
  let (y, r1) ← takeDigitsAux 4 0 cs
  let r2 ← expectChar '-' r1
  let (mo, r3) ← takeNum2 1 12 r2
  let r4 ← expectChar '-' r3
  let (dy, r5) ← takeNum2 1 31 r4
  let r6 ← expectT r5
  let (hr, r7) ← takeNum2 0 23 r6
  let r8 ← expectChar ':' r7
  let (mi, r9) ← takeNum2 0 59 r8
  let r10 ← expectChar ':' r9
  let (sec, r11) ← takeNum2 0 59 r10
  let r12 ← expectChar '.' r11
  let (mic, r13) ← takeMicro r12
  let (off, r14) ← parseOffset r13
  if r14 = [] then some ⟨y, mo, dy, hr, mi, sec, mic, off⟩ else none

/-- Epoch seconds of a parsed aware datetime, truncated toward zero the way
the int conversion of a float timestamp truncates. -/
def parsePlayedAt (s : String) : Option Int := do
  let p ← parseFields s.toList
  if 1 ≤ p.year ∧ p.day ≤ daysInMonth p.year p.month then
    let hms : Int := Int.ofNat (p.hour * 3600 + p.minute * 60 + p.second)
    let es : Int :=
      (Int.ofNat (toOrdinal p.year p.month p.day) - 719163) * 86400 + hms - p.offset
    some (if es < 0 ∧ p.micro ≠ 0 then es + 1 else es)
  else none

/-! ## Data model: raw provider items and canonical scrobble records -/

structure Artist where
  name : String
deriving DecidableEq

structure Album where
  name : String
deriving DecidableEq

structure TrackObj where
  artists : Option (List Artist)
  name : Option String
  album : Option Album
  track_number : Option Int
  duration_ms : Option Nat
deriving DecidableEq

structure PlayedItem where
  track : Option TrackObj
  played_at : Option String
deriving DecidableEq

structure ScrobbleRecord where
  artist : String
  title : String
  album : String
  track_number : Option Int
  duration : Nat
  timestamp : Int
deriving DecidableEq

/-- Track Normalizer, from the try-block of sls.py lines 121-135: any
missing field, empty artist list, or unparseable played_at fails. -/
def normalizeTrack (item : PlayedItem) : Option ScrobbleRecord := do
  let t ← item.track
  let arts ← t.artists
  let a0 ← arts.head?
  let title ← t.name
  let alb ← t.album
  let dm ← t.duration_ms
  let pa ← item.played_at
  let ts ← parsePlayedAt pa
  some ⟨a0.name, title, alb.name, t.track_number, (dm + 999) / 1000, ts⟩

/-- The organizing loop of sls.py lines 120-142: none models the path that
spills the full raw batch and exits with code 1 on the first bad item. -/
def organizeTracks : List PlayedItem → Option (List ScrobbleRecord)
  | [] => some []
  | it :: rest =>
    match normalizeTrack it with
    | none => none
    | some r =>
      match organizeTracks rest with
      | none => none
      | some rs => some (r :: rs)

def samplePlayedItem : PlayedItem :=
  ⟨some ⟨some [⟨"A"⟩], some "T", some ⟨"Al"⟩, some 3, some 215500⟩,
   some "2023-01-01T00:00:00.000+00:00"⟩

/-! ## Pagination Cursor Tracker, from the while loop of scrobble.py
lines 24-30: each response page carries items and a cursors object whose
after value (when the object is not null) replaces the running cursor;
the loop stops at the first page with zero items. -/

structure Page where
  items : List PlayedItem
  cursors : Option String
deriving DecidableEq

def paginate : List Page → Option String → List PlayedItem × Option String
  | [], cur => ([], cur)
  | p :: ps, cur =>
    let cur' := match p.cursors with
      | some a => some a
      | none => cur
    if p.items.length = 0 then ([], cur')
    else
      let rest := paginate ps cur'
      (p.items ++ rest.1, rest.2)

/-- The cursor threading of the loop in isolation: every page with a
non-null cursors object overwrites the running cursor. -/
def lastCarriedCursor : List Page → Option String → Option String
  | [], cur => cur
  | p :: ps, cur =>
    lastCarriedCursor ps (match p.cursors with
      | some a => some a
      | none => cur)

/-! ## Scrobble Submission Loop, from sls.py lines 151-176 -/

inductive SubmitResult where
  | ok : SubmitResult
  | wsError : SubmitResult
  | otherError : SubmitResult
deriving DecidableEq

structure LibreAuth where
  username : String
  password_hash : String
  session_key : Option String
deriving DecidableEq

inductive LoopOutcome where
  | success : LibreAuth → Nat → Nat → LoopOutcome
  | exhausted : Nat → Nat → LoopOutcome
  | fatal : LibreAuth → Nat → Nat → LoopOutcome
deriving DecidableEq

/-- The while loop of sls.py lines 152-171: tries counts down from the
fuel; submit gives the outcome of scrobble_many on each attempt
(0-indexed); newKey gives the session key produced by each interactive
re-authorization cycle (0-indexed); the accumulators count attempts made
and re-authorization cycles performed. Only WSError is caught: it runs a
re-authorization cycle and retries with the rotated key; any other error
propagates; success returns the auth in use together with the counters. -/
def runLoop (submit : Nat → SubmitResult) (newKey : Nat → String) :
    Nat → Nat → Nat → LibreAuth → LoopOutcome
  | 0, attempts, reauths, _ => .exhausted attempts reauths
  | tries + 1, attempts, reauths, auth =>
    match submit attempts with
    | .ok => .success auth (attempts + 1) reauths
    | .wsError =>
      runLoop submit newKey tries (attempts + 1) (reauths + 1)
        ⟨auth.username, auth.password_hash, some (newKey reauths)⟩
    | .otherError => .fatal auth (attempts + 1) reauths

def LoopOutcome.attemptCount : LoopOutcome → Nat
  | .success _ a _ => a
  | .exhausted a _ => a
  | .fatal _ a _ => a

/-- The auth mapping after k re-authorization cycles that started with
reauth counter r: unchanged for k = 0, else carrying the key of the last
cycle performed. -/
def rotatedAuth (newKey : Nat → String) (auth : LibreAuth) (r k : Nat) : LibreAuth :=
  if k = 0 then auth else ⟨auth.username, auth.password_hash, some (newKey (r + k - 1))⟩

/-! ## Main flow of sls.py lines 108-181 (scrobble phase) -/

/-- sls.py lines 112-116: when scrobble_remaining is set and the tracks
file exists, its saved items are appended (list extend) after the freshly
fetched items. -/
def mergedTracks (fresh : List PlayedItem) (scrobbleRemaining : Bool)
    (savedFile : Option (List PlayedItem)) : List PlayedItem :=
  match scrobbleRemaining, savedFile with
  | true, some saved => fresh ++ saved
  | _, _ => fresh

inductive MainOutcome where
  | exit0 : Option String → Nat → Nat → MainOutcome
  | exit1Spill : List PlayedItem → Nat → Nat → MainOutcome
  | keyErrorCrash : Nat → Nat → MainOutcome
  | fatalCrash : Nat → Nat → MainOutcome
deriving DecidableEq

/-- sls.py lines 112-181: merge any saved tracks, organize, and when the
normalized batch is nonempty run the bounded submission loop with ten
tries. exit0 carries the final SESSION_KEY value of the config section
plus the attempt and re-authorization counts; exit1Spill carries the raw
items written by save_tracks before sys.exit(1); keyErrorCrash is the
uncaught KeyError at line 170 when the auth mapping has no session_key on
the success path; fatalCrash is a propagated non-WSError exception. -/
def mainRun (fresh : List PlayedItem) (scrobbleRemaining : Bool)
    (savedFile : Option (List PlayedItem)) (auth : LibreAuth)
    (submit : Nat → SubmitResult) (newKey : Nat → String) : MainOutcome :=
  let spotifyTracks := mergedTracks fresh scrobbleRemaining savedFile
  match organizeTracks spotifyTracks with
  | none => .exit1Spill spotifyTracks 0 0
  | some tracks =>
    if tracks.isEmpty then .exit0 auth.session_key 0 0
    else
      match runLoop submit newKey 10 0 0 auth with
      | .success auth' attempts reauths =>
        (match auth'.session_key with
         | some k => .exit0 (some k) attempts reauths
         | none => .keyErrorCrash attempts reauths)
      | .exhausted attempts reauths => .exit1Spill spotifyTracks attempts reauths
      | .fatal _ attempts reauths => .fatalCrash attempts reauths

def MainOutcome.attemptCount : MainOutcome → Nat
  | .exit0 _ a _ => a
  | .exit1Spill _ a _ => a
  | .keyErrorCrash a _ => a
  | .fatalCrash a _ => a

/-! ## Unsent-Batch Spill serialization.
Modelled from the spec: the pickle module that save_tracks (sls.py lines
60-62) delegates to is outside the repository; the spec requires only that
the spilled blob is an opaque serialization whose deserialization
reproduces the original raw items. We model it as an injective token
encoding with an executable decoder. -/

inductive Tok where
  | tstr : String → Tok
  | tint : Int → Tok
  | tnone : Tok
  | tsome : Tok
  | tnil : Tok
  | tcons : Tok
deriving DecidableEq

def encOptStr : Option String → List Tok
  | none => [Tok.tnone]
  | some s => [Tok.tsome, Tok.tstr s]

def decOptStr : List Tok → Option (Option String × List Tok)
  | Tok.tnone :: ts => some (none, ts)
  | Tok.tsome :: Tok.tstr s :: ts => some (some s, ts)
  | _ => none

def encOptInt : Option Int → List Tok
  | none => [Tok.tnone]
  | some i => [Tok.tsome, Tok.tint i]

def decOptInt : List Tok → Option (Option Int × List Tok)
  | Tok.tnone :: ts => some (none, ts)
  | Tok.tsome :: Tok.tint i :: ts => some (some i, ts)
  | _ => none

def encOptNat : Option Nat → List Tok
  | none => [Tok.tnone]
  | some n => [Tok.tsome, Tok.tint (Int.ofNat n)]

def decOptNat : List Tok → Option (Option Nat × List Tok)
  | Tok.tnone :: ts => some (none, ts)
  | Tok.tsome :: Tok.tint (Int.ofNat n) :: ts => some (some n, ts)
  | _ => none

def encArtists : List Artist → List Tok
  | [] => [Tok.tnil]
  | a :: rest => Tok.tcons :: Tok.tstr a.name :: encArtists rest

def decArtists : List Tok → Option (List Artist × List Tok)
  | Tok.tnil :: ts => some ([], ts)
  | Tok.tcons :: Tok.tstr s :: ts =>
    (match decArtists ts with
     | some (xs, r) => some (⟨s⟩ :: xs, r)
     | none => none)
  | _ => none

def encOptArtists : Option (List Artist) → List Tok
  | none => [Tok.tnone]
  | some xs => Tok.tsome :: encArtists xs

def decOptArtists : List Tok → Option (Option (List Artist) × List Tok)
  | Tok.tnone :: ts => some (none, ts)
  | Tok.tsome :: ts =>
    (match decArtists ts with
     | some (xs, r) => some (some xs, r)
     | none => none)
  | _ => none

def encOptAlbum : Option Album → List Tok
  | none => [Tok.tnone]
  | some al => [Tok.tsome, Tok.tstr al.name]

def decOptAlbum : List Tok → Option (Option Album × List Tok)
  | Tok.tnone :: ts => some (none, ts)
  | Tok.tsome :: Tok.tstr s :: ts => some (some ⟨s⟩, ts)
  | _ => none

def encTrack (t : TrackObj) : List Tok :=
  encOptArtists t.artists ++ encOptStr t.name ++ encOptAlbum t.album ++
    encOptInt t.track_number ++ encOptNat t.duration_ms

def decTrack (ts : List Tok) : Option (TrackObj × List Tok) := do
  let (arts, r1) ← decOptArtists ts
  let (nm, r2) ← decOptStr r1
  let (al, r3) ← decOptAlbum r2
  let (tn, r4) ← decOptInt r3
  let (dm, r5) ← decOptNat r4
  some (⟨arts, nm, al, tn, dm⟩, r5)

def encOptTrack : Option TrackObj → List Tok
  | none => [Tok.tnone]
  | some t => Tok.tsome :: encTrack t

def decOptTrack : List Tok → Option (Option TrackObj × List Tok)
  | Tok.tnone :: ts => some (none, ts)
  | Tok.tsome :: ts =>
    (match decTrack ts with
     | some (t, r) => some (some t, r)
     | none => none)
  | _ => none

def encItem (it : PlayedItem) : List Tok :=
  encOptTrack it.track ++ encOptStr it.played_at

def decItem (ts : List Tok) : Option (PlayedItem × List Tok) := do
  let (tr, r1) ← decOptTrack ts
  let (pa, r2) ← decOptStr r1
  some (⟨tr, pa⟩, r2)

def encodeItems : List PlayedItem → List Tok
  | [] => [Tok.tnil]
  | x :: xs => Tok.tcons :: (encItem x ++ encodeItems xs)

def decItemsAux : Nat → List Tok → Option (List PlayedItem × List Tok)
  | _, Tok.tnil :: ts => some ([], ts)
  | fuel + 1, Tok.tcons :: ts =>
    (match decItem ts with
     | some (x, r) =>
       (match decItemsAux fuel r with
        | some (xs, r2) => some (x :: xs, r2)
        | none => none)
     | none => none)
  | _, _ => none

def decodeItems (ts : List Tok) : Option (List PlayedItem) :=
  match decItemsAux ts.length ts with
  | some (xs, []) => some xs
  | _ => none

/-! ## Concrete fixtures for witnesses -/

def sampleRecord : ScrobbleRecord := ⟨"A", "T", "Al", some 3, 216, 1672531200⟩

def badItem : PlayedItem :=
  ⟨some ⟨some [⟨"B"⟩], some "X", some ⟨"Y"⟩, none, some 1000⟩, some "garbage"⟩

def itemA : PlayedItem := ⟨none, some "freshitem"⟩

def itemB : PlayedItem := ⟨none, some "saveditem"⟩

/-! ## Round-trip lemmas for the spill serialization -/

theorem decOptStr_enc (v : Option String) (r : List Tok) :
    decOptStr (encOptStr v ++ r) = some (v, r) := by
  cases v <;> simp [encOptStr, decOptStr]

theorem decOptInt_enc (v : Option Int) (r : List Tok) :
    decOptInt (encOptInt v ++ r) = some (v, r) := by
  cases v <;> simp [encOptInt, decOptInt]

theorem decOptNat_enc (v : Option Nat) (r : List Tok) :
    decOptNat (encOptNat v ++ r) = some (v, r) := by
  cases v <;> simp [encOptNat, decOptNat]

theorem decArtists_enc (xs : List Artist) (r : List Tok) :
    decArtists (encArtists xs ++ r) = some (xs, r) := by
  induction xs with
  | nil => simp [encArtists, decArtists]
  | cons a rest ih => simp [encArtists, decArtists, ih]

theorem decOptArtists_enc (v : Option (List Artist)) (r : List Tok) :
    decOptArtists (encOptArtists v ++ r) = some (v, r) := by
  cases v with
  | none => simp [encOptArtists, decOptArtists]
  | some xs => simp [encOptArtists, decOptArtists, decArtists_enc]

theorem decOptAlbum_enc (v : Option Album) (r : List Tok) :
    decOptAlbum (encOptAlbum v ++ r) = some (v, r) := by
  cases v <;> simp [encOptAlbum, decOptAlbum]

theorem decTrack_enc (t : TrackObj) (r : List Tok) :
    decTrack (encTrack t ++ r) = some (t, r) := by
  simp [encTrack, decTrack, List.append_assoc, decOptArtists_enc, decOptStr_enc,
    decOptAlbum_enc, decOptInt_enc, decOptNat_enc]

theorem decOptTrack_enc (v : Option TrackObj) (r : List Tok) :
    decOptTrack (encOptTrack v ++ r) = some (v, r) := by
  cases v with
  | none => simp [encOptTrack, decOptTrack]
  | some t => simp [encOptTrack, decOptTrack, decTrack_enc]

theorem decItem_enc (it : PlayedItem) (r : List Tok) :
    decItem (encItem it ++ r) = some (it, r) := by
  simp [encItem, decItem, List.append_assoc, decOptTrack_enc, decOptStr_enc]

theorem decItemsAux_enc (xs : List PlayedItem) :
    ∀ (fuel : Nat) (r : List Tok), xs.length ≤ fuel →
      decItemsAux fuel (encodeItems xs ++ r) = some (xs, r) := by
  induction xs with
  | nil => intro fuel r _; cases fuel <;> simp [encodeItems, decItemsAux]
  | cons x rest ih =>
    intro fuel r hf
    match fuel, hf with
    | f + 1, hf =>
      have hrest : rest.length ≤ f := by
        simp [List.length_cons] at hf; omega
      simp [encodeItems, decItemsAux, List.append_assoc, decItem_enc, ih f r hrest]

theorem length_le_encodeItems (xs : List PlayedItem) :
    xs.length ≤ (encodeItems xs).length := by
  induction xs with
  | nil => simp [encodeItems]
  | cons x rest ih => simp [encodeItems]; omega

theorem decodeItems_encodeItems (xs : List PlayedItem) :
    decodeItems (encodeItems xs) = some xs := by
  have h := decItemsAux_enc xs (encodeItems xs).length [] (length_le_encodeItems xs)
  simp only [List.append_nil] at h
  simp [decodeItems, h]

/-! ## Lemmas about the submission loop -/

theorem runLoop_allWs (submit : Nat → SubmitResult) (newKey : Nat → String)
    (hFail : ∀ n, submit n = SubmitResult.wsError) :
    ∀ (fuel a r : Nat) (auth : LibreAuth),
      runLoop submit newKey fuel a r auth = LoopOutcome.exhausted (a + fuel) (r + fuel) := by
  intro fuel
  induction fuel with
  | zero => intro a r auth; simp [runLoop]
  | succ f ih =>
    intro a r auth
    simp only [runLoop, hFail a]
    rw [ih]
    congr 1 <;> omega

theorem runLoop_attempts_le (submit : Nat → SubmitResult) (newKey : Nat → String) :
    ∀ (fuel a r : Nat) (auth : LibreAuth),
      (runLoop submit newKey fuel a r auth).attemptCount ≤ a + fuel := by
  intro fuel
  induction fuel with
  | zero => intro a r auth; simp [runLoop, LoopOutcome.attemptCount]
  | succ f ih =>
    intro a r auth
    simp only [runLoop]
    cases submit a with
    | ok => simp [LoopOutcome.attemptCount]
    | wsError =>
      calc (runLoop submit newKey f (a + 1) (r + 1)
              ⟨auth.username, auth.password_hash, some (newKey r)⟩).attemptCount
          ≤ (a + 1) + f := ih (a + 1) (r + 1) _
        _ ≤ a + (f + 1) := by omega
    | otherError => simp [LoopOutcome.attemptCount]

theorem runLoop_ws_then_other (submit : Nat → SubmitResult) (newKey : Nat → String) :
    ∀ (k fuel a r : Nat) (auth : LibreAuth), k < fuel →
      (∀ i, i < k → submit (a + i) = SubmitResult.wsError) →
      submit (a + k) = SubmitResult.otherError →
      ∃ au, runLoop submit newKey fuel a r auth = LoopOutcome.fatal au (a + k + 1) (r + k) := by
  intro k
  induction k with
  | zero =>
    intro fuel a r auth hk _ hOther
    match fuel, hk with
    | f + 1, _ =>
      refine ⟨auth, ?_⟩
      rw [show a + 0 = a from rfl] at hOther
      simp [runLoop, hOther]
  | succ k ih =>
    intro fuel a r auth hk hWs hOther
    match fuel, hk with
    | f + 1, hk =>
      have h0 : submit a = SubmitResult.wsError := by
        simpa using hWs 0 (Nat.succ_pos k)
      simp only [runLoop, h0]
      have hWs' : ∀ i, i < k → submit (a + 1 + i) = SubmitResult.wsError := by
        intro i hi
        have h := hWs (i + 1) (Nat.succ_lt_succ hi)
        have he : a + (i + 1) = a + 1 + i := by omega
        rwa [he] at h
      have hOther' : submit (a + 1 + k) = SubmitResult.otherError := by
        have he : a + (k + 1) = a + 1 + k := by omega
        rwa [he] at hOther
      obtain ⟨au, hau⟩ := ih f (a + 1) (r + 1)
        ⟨auth.username, auth.password_hash, some (newKey r)⟩
        (Nat.lt_of_succ_lt_succ hk) hWs' hOther'
      refine ⟨au, ?_⟩
      rw [hau]
      congr 1 <;> omega

theorem runLoop_success_key_isSome (submit : Nat → SubmitResult) (newKey : Nat → String) :
    ∀ (fuel a r : Nat) (auth au : LibreAuth) (a2 r2 : Nat),
      auth.session_key.isSome →
      runLoop submit newKey fuel a r auth = LoopOutcome.success au a2 r2 →
      au.session_key.isSome := by
  intro fuel
  induction fuel with
  | zero => intro a r auth au a2 r2 _ h; simp [runLoop] at h
  | succ f ih =>
    intro a r auth au a2 r2 hSome h
    simp only [runLoop] at h
    cases hs : submit a with
    | ok =>
      rw [hs] at h
      simp only [LoopOutcome.success.injEq] at h
      obtain ⟨h1, _, _⟩ := h
      rw [← h1]; exact hSome
    | wsError =>
      rw [hs] at h
      exact ih (a + 1) (r + 1) _ au a2 r2 (by simp) h
    | otherError => rw [hs] at h; simp at h

/-! ## Lemmas about organize and the main flow -/

theorem organizeTracks_none_of_mem (l : List PlayedItem) (bad : PlayedItem)
    (hmem : bad ∈ l) (hbad : normalizeTrack bad = none) :
    organizeTracks l = none := by
  induction l with
  | nil => cases hmem
  | cons x rest ih =>
    cases hmem with
    | head => simp [organizeTracks, hbad]
    | tail _ hm =>
      simp only [organizeTracks]
      cases normalizeTrack x with
      | none => rfl
      | some r => rw [ih hm]

theorem mainRun_eq_loop (fresh : List PlayedItem) (rem : Bool)
    (saved : Option (List PlayedItem)) (auth : LibreAuth)
    (submit : Nat → SubmitResult) (newKey : Nat → String)
    (tracks : List ScrobbleRecord)
    (hOrg : organizeTracks (mergedTracks fresh rem saved) = some tracks)
    (hNE : tracks ≠ []) :
    mainRun fresh rem saved auth submit newKey =
      match runLoop submit newKey 10 0 0 auth with
      | .success au a r =>
        (match au.session_key with
         | some k => MainOutcome.exit0 (some k) a r
         | none => MainOutcome.keyErrorCrash a r)
      | .exhausted a r => MainOutcome.exit1Spill (mergedTracks fresh rem saved) a r
      | .fatal _ a r => MainOutcome.fatalCrash a r := by
  obtain ⟨t, ts, rfl⟩ := List.exists_cons_of_ne_nil hNE
  simp [mainRun, hOrg]

theorem runLoop_ws_then_ok (submit : Nat → SubmitResult) (newKey : Nat → String) :
    ∀ (k fuel a r : Nat) (auth : LibreAuth), k < fuel →
      (∀ i, i < k → submit (a + i) = SubmitResult.wsError) →
      submit (a + k) = SubmitResult.ok →
      runLoop submit newKey fuel a r auth
        = LoopOutcome.success (rotatedAuth newKey auth r k) (a + k + 1) (r + k) := by
  intro k
  induction k with
  | zero =>
    intro fuel a r auth hk _ hOk
    match fuel, hk with
    | f + 1, _ =>
      rw [show a + 0 = a from rfl] at hOk
      simp [runLoop, hOk, rotatedAuth]
  | succ k ih =>
    intro fuel a r auth hk hWs hOk
    match fuel, hk with
    | f + 1, hk =>
      have h0 : submit a = SubmitResult.wsError := by simpa using hWs 0 (Nat.succ_pos k)
      simp only [runLoop, h0]
      have hWs' : ∀ i, i < k → submit (a + 1 + i) = SubmitResult.wsError := by
        intro i hi
        have h := hWs (i + 1) (Nat.succ_lt_succ hi)
        have he : a + (i + 1) = a + 1 + i := by omega
        rwa [he] at h
      have hOk' : submit (a + 1 + k) = SubmitResult.ok := by
        have he : a + (k + 1) = a + 1 + k := by omega
        rwa [he] at hOk
      rw [ih f (a + 1) (r + 1) ⟨auth.username, auth.password_hash, some (newKey r)⟩
        (Nat.lt_of_succ_lt_succ hk) hWs' hOk']
      have hr : rotatedAuth newKey ⟨auth.username, auth.password_hash, some (newKey r)⟩ (r + 1) k
          = rotatedAuth newKey auth r (k + 1) := by
        cases k with
        | zero => simp [rotatedAuth]
        | succ k2 =>
          have he2 : r + 1 + (k2 + 1) - 1 = r + (k2 + 1 + 1) - 1 := by omega
          simp only [rotatedAuth, Nat.succ_ne_zero, if_neg, ite_false,
            LibreAuth.mk.injEq, true_and, he2]
      rw [hr]
      have e1 : a + 1 + k + 1 = a + (k + 1) + 1 := by omega
      have e2 : r + 1 + k = r + (k + 1) := by omega
      rw [e1, e2]

/-! ## Lemmas for the pagination loop -/

theorem getLast?_cons_ne_none (y : α) (ys : List α) : (y :: ys).getLast? ≠ none := by
  induction ys generalizing y with
  | nil => simp
  | cons z zs ih => rw [List.getLast?_cons_cons]; exact ih z

theorem lastCarriedCursor_char :
    ∀ (l : List Page) (c : Option String),
      lastCarriedCursor l c = ((l.filterMap fun p => p.cursors).getLast?).elim c some := by
  intro l
  induction l with
  | nil => intro c; simp [lastCarriedCursor]
  | cons p l ih =>
    intro c
    cases hc : p.cursors with
    | none => simp [lastCarriedCursor, hc, List.filterMap_cons, ih]
    | some a =>
      simp only [lastCarriedCursor, hc, List.filterMap_cons]
      rw [ih]
      cases hfl : l.filterMap (fun p => p.cursors) with
      | nil => simp
      | cons y ys =>
        rw [List.getLast?_cons_cons]
        cases hg : (y :: ys).getLast? with
        | none => exact absurd hg (getLast?_cons_ne_none y ys)
        | some z => simp

theorem paginate_pages (pe : Page) (he : pe.items = []) :
    ∀ (ps : List Page) (cur : Option String), (∀ p ∈ ps, p.items ≠ []) →
      paginate (ps ++ [pe]) cur
        = ((ps.map Page.items).flatten, lastCarriedCursor (ps ++ [pe]) cur) := by
  intro ps
  induction ps with
  | nil => intro cur _; simp [paginate, lastCarriedCursor, he]
  | cons p ps ih =>
    intro cur hne
    have hp : p.items ≠ [] := hne p (by simp)
    have hlen : ¬ p.items.length = 0 := by simpa [List.length_eq_zero] using hp
    simp only [List.cons_append, paginate, lastCarriedCursor, List.append_eq]
    rw [if_neg hlen]
    rw [ih _ (fun q hq => hne q (by simp [hq]))]
    simp

/-! ## Claim theorems -/

/-- C1: with a nonempty normalized batch and a submission that always fails
with a session-invalid error, the submission loop performs exactly the
maximum of 10 attempts, ends in failure, spills the raw provider items and
exits with code 1; and for every submission behaviour the loop never makes
more than 10 attempts. -/
theorem loop_exhausts_max_attempts
    (fresh : List PlayedItem) (rem : Bool) (saved : Option (List PlayedItem))
    (auth : LibreAuth) (submit : Nat → SubmitResult) (newKey : Nat → String)
    (tracks : List ScrobbleRecord)
    (hOrg : organizeTracks (mergedTracks fresh rem saved) = some tracks)
    (hNE : tracks ≠ [])
    (hFail : ∀ n, submit n = SubmitResult.wsError) :
    mainRun fresh rem saved auth submit newKey
      = MainOutcome.exit1Spill (mergedTracks fresh rem saved) 10 10
    ∧ ∀ (submit2 : Nat → SubmitResult) (newKey2 : Nat → String),
        (mainRun fresh rem saved auth submit2 newKey2).attemptCount ≤ 10 := by
  constructor
  · rw [mainRun_eq_loop fresh rem saved auth submit newKey tracks hOrg hNE]
    rw [runLoop_allWs submit newKey hFail 10 0 0 auth]
  · intro submit2 newKey2
    rw [mainRun_eq_loop fresh rem saved auth submit2 newKey2 tracks hOrg hNE]
    have hb := runLoop_attempts_le submit2 newKey2 10 0 0 auth
    cases h : runLoop submit2 newKey2 10 0 0 auth with
    | success au a r =>
      rw [h] at hb
      cases hau : au.session_key with
      | none => simpa [hau, LoopOutcome.attemptCount, MainOutcome.attemptCount] using hb
      | some k2 => simpa [hau, LoopOutcome.attemptCount, MainOutcome.attemptCount] using hb
    | exhausted a r =>
      rw [h] at hb
      simpa [LoopOutcome.attemptCount, MainOutcome.attemptCount] using hb
    | fatal au a r =>
      rw [h] at hb
      simpa [LoopOutcome.attemptCount, MainOutcome.attemptCount] using hb

theorem loop_exhausts_max_attempts_witness :
    mainRun [samplePlayedItem] false none ⟨"u", "p", none⟩
        (fun _ => SubmitResult.wsError) (fun _ => "k")
      = MainOutcome.exit1Spill (mergedTracks [samplePlayedItem] false none) 10 10
    ∧ ∀ (submit2 : Nat → SubmitResult) (newKey2 : Nat → String),
        (mainRun [samplePlayedItem] false none ⟨"u", "p", none⟩
          submit2 newKey2).attemptCount ≤ 10 :=
  loop_exhausts_max_attempts [samplePlayedItem] false none ⟨"u", "p", none⟩
    (fun _ => SubmitResult.wsError) (fun _ => "k") [sampleRecord]
    (by decide) (by decide) (fun n => rfl)

/-- C2: with a nonempty batch, when the first k attempts fail with the
session-invalid error and attempt k raises any other error, the loop
performs exactly one interactive re-authorization cycle per session-invalid
error (k in total) and the other error propagates unhandled at once,
aborting the run after k + 1 attempts with no further recovery. -/
theorem recovery_iff_session_invalid
    (fresh : List PlayedItem) (rem : Bool) (saved : Option (List PlayedItem))
    (auth : LibreAuth) (submit : Nat → SubmitResult) (newKey : Nat → String)
    (tracks : List ScrobbleRecord) (k : Nat)
    (hOrg : organizeTracks (mergedTracks fresh rem saved) = some tracks)
    (hNE : tracks ≠ []) (hk : k < 10)
    (hWs : ∀ i, i < k → submit i = SubmitResult.wsError)
    (hOther : submit k = SubmitResult.otherError) :
    mainRun fresh rem saved auth submit newKey = MainOutcome.fatalCrash (k + 1) k := by
  rw [mainRun_eq_loop fresh rem saved auth submit newKey tracks hOrg hNE]
  obtain ⟨au, hau⟩ := runLoop_ws_then_other submit newKey k 10 0 0 auth hk
    (by intro i hi; simpa using hWs i hi) (by simpa using hOther)
  rw [hau]
  simp

theorem recovery_iff_session_invalid_witness :
    mainRun [samplePlayedItem] false none ⟨"u", "p", none⟩
        (fun n => if n < 2 then SubmitResult.wsError else SubmitResult.otherError)
        (fun _ => "k")
      = MainOutcome.fatalCrash 3 2 :=
  recovery_iff_session_invalid [samplePlayedItem] false none ⟨"u", "p", none⟩
    (fun n => if n < 2 then SubmitResult.wsError else SubmitResult.otherError)
    (fun _ => "k") [sampleRecord] 2 (by decide) (by decide) (by decide)
    (by intro i hi
        rcases i with _ | _ | i
        · rfl
        · rfl
        · omega)
    (by rfl)

/-- C3: with a nonempty batch, when the submission fails with the
session-invalid error exactly twice and then succeeds, the loop performs
exactly 2 re-authorization cycles over 3 attempts, ends in success, and
the session key recorded into the config for persistence is the key of the
second rotation, never the stale credential first supplied. -/
theorem two_failures_then_success_rotates
    (fresh : List PlayedItem) (rem : Bool) (saved : Option (List PlayedItem))
    (auth : LibreAuth) (submit : Nat → SubmitResult) (newKey : Nat → String)
    (tracks : List ScrobbleRecord)
    (hOrg : organizeTracks (mergedTracks fresh rem saved) = some tracks)
    (hNE : tracks ≠ [])
    (h0 : submit 0 = SubmitResult.wsError) (h1 : submit 1 = SubmitResult.wsError)
    (h2 : submit 2 = SubmitResult.ok) :
    mainRun fresh rem saved auth submit newKey
      = MainOutcome.exit0 (some (newKey 1)) 3 2 := by
  rw [mainRun_eq_loop fresh rem saved auth submit newKey tracks hOrg hNE]
  have hWs : ∀ i, i < 2 → submit (0 + i) = SubmitResult.wsError := by
    intro i hi
    rcases i with _ | _ | i
    · simpa using h0
    · simpa using h1
    · omega
  have hOk : submit (0 + 2) = SubmitResult.ok := by simpa using h2
  rw [runLoop_ws_then_ok submit newKey 2 10 0 0 auth (by omega) hWs hOk]
  simp [rotatedAuth]

theorem two_failures_then_success_rotates_witness :
    mainRun [samplePlayedItem] false none ⟨"u", "p", some "stale"⟩
        (fun n => if n < 2 then SubmitResult.wsError else SubmitResult.ok)
        (fun n => if n = 0 then "key0" else "key1")
      = MainOutcome.exit0 (some "key1") 3 2 :=
  two_failures_then_success_rotates [samplePlayedItem] false none
    ⟨"u", "p", some "stale"⟩
    (fun n => if n < 2 then SubmitResult.wsError else SubmitResult.ok)
    (fun n => if n = 0 then "key0" else "key1") [sampleRecord]
    (by decide) (by decide) (by rfl) (by rfl) (by rfl)

/-- C4: for a sequence of provider pages all nonempty followed by an empty
page, the pagination loop accumulates exactly the concatenation of the
items of the non-empty pages in provider order, terminates at the empty
page, and returns the cursor carried by the last page whose cursors object
was non-null, falling back to the starting cursor when none carried one. -/
theorem pagination_accumulates_pages
    (ps : List Page) (pe : Page) (cur : Option String)
    (hne : ∀ p ∈ ps, p.items ≠ []) (he : pe.items = []) :
    paginate (ps ++ [pe]) cur
      = ((ps.map Page.items).flatten, lastCarriedCursor (ps ++ [pe]) cur)
    ∧ ∀ (l : List Page) (c : Option String),
        lastCarriedCursor l c = ((l.filterMap fun p => p.cursors).getLast?).elim c some :=
  ⟨paginate_pages pe he ps cur hne, lastCarriedCursor_char⟩

theorem pagination_accumulates_pages_witness :
    paginate [⟨[itemA], some "c1"⟩, ⟨[itemB], none⟩, (⟨[], some "c2"⟩ : Page)] none
      = (([⟨[itemA], some "c1"⟩, (⟨[itemB], none⟩ : Page)].map Page.items).flatten,
         lastCarriedCursor [⟨[itemA], some "c1"⟩, ⟨[itemB], none⟩, (⟨[], some "c2"⟩ : Page)] none)
    ∧ ∀ (l : List Page) (c : Option String),
        lastCarriedCursor l c = ((l.filterMap fun p => p.cursors).getLast?).elim c some :=
  pagination_accumulates_pages [⟨[itemA], some "c1"⟩, ⟨[itemB], none⟩]
    ⟨[], some "c2"⟩ none (by decide) (by rfl)

/-- C5: for every well-formed PlayedItem the normalizer produces a record
whose duration is the ceiling of duration_ms over 1000, whose timestamp is
the epoch-seconds parse of played_at under the fixed format, and whose
track number passes through unchanged (absent stays absent); in particular
the sample item of the spec maps to the stated record. -/
theorem normalizer_duration_timestamp
    (a0 : String) (arts : List Artist) (nm al : String) (tn : Option Int)
    (dm : Nat) (pa : String) (ts : Int)
    (hts : parsePlayedAt pa = some ts) :
    normalizeTrack ⟨some ⟨some (⟨a0⟩ :: arts), some nm, some ⟨al⟩, tn, some dm⟩, some pa⟩
      = some ⟨a0, nm, al, tn, (dm + 999) / 1000, ts⟩
    ∧ (dm ≤ 1000 * ((dm + 999) / 1000) ∧ 1000 * ((dm + 999) / 1000) < dm + 1000)
    ∧ normalizeTrack samplePlayedItem = some ⟨"A", "T", "Al", some 3, 216, 1672531200⟩ := by
  refine ⟨?_, ⟨by omega, by omega⟩, by decide⟩
  simp [normalizeTrack, hts]

theorem normalizer_duration_timestamp_witness :
    normalizeTrack ⟨some ⟨some (⟨"A"⟩ :: []), some "T", some ⟨"Al"⟩, some 3, some 215500⟩,
        some "2023-01-01T00:00:00.000+00:00"⟩
      = some ⟨"A", "T", "Al", some 3, (215500 + 999) / 1000, 1672531200⟩
    ∧ (215500 ≤ 1000 * ((215500 + 999) / 1000) ∧ 1000 * ((215500 + 999) / 1000) < 215500 + 1000)
    ∧ normalizeTrack samplePlayedItem = some ⟨"A", "T", "Al", some 3, 216, 1672531200⟩ :=
  normalizer_duration_timestamp "A" [] "T" "Al" (some 3) 215500
    "2023-01-01T00:00:00.000+00:00" 1672531200 (by decide)

/-- C6: when any item of the combined raw batch fails normalization, the
whole batch is aborted before any submission attempt, the full original
raw list is spilled and the process exits with code 1, and deserializing
the spilled serialization reproduces the original raw items exactly. -/
theorem malformed_batch_spills
    (fresh : List PlayedItem) (rem : Bool) (saved : Option (List PlayedItem))
    (auth : LibreAuth) (submit : Nat → SubmitResult) (newKey : Nat → String)
    (bad : PlayedItem)
    (hmem : bad ∈ mergedTracks fresh rem saved)
    (hbad : normalizeTrack bad = none) :
    organizeTracks (mergedTracks fresh rem saved) = none
    ∧ mainRun fresh rem saved auth submit newKey
        = MainOutcome.exit1Spill (mergedTracks fresh rem saved) 0 0
    ∧ decodeItems (encodeItems (mergedTracks fresh rem saved))
        = some (mergedTracks fresh rem saved) := by
  have hOrg := organizeTracks_none_of_mem _ bad hmem hbad
  refine ⟨hOrg, ?_, decodeItems_encodeItems _⟩
  simp [mainRun, hOrg]

theorem malformed_batch_spills_witness :
    organizeTracks (mergedTracks [samplePlayedItem, badItem] false none) = none
    ∧ mainRun [samplePlayedItem, badItem] false none ⟨"u", "p", some "sk"⟩
        (fun _ => SubmitResult.ok) (fun _ => "k")
        = MainOutcome.exit1Spill (mergedTracks [samplePlayedItem, badItem] false none) 0 0
    ∧ decodeItems (encodeItems (mergedTracks [samplePlayedItem, badItem] false none))
        = some (mergedTracks [samplePlayedItem, badItem] false none) :=
  malformed_batch_spills [samplePlayedItem, badItem] false none ⟨"u", "p", some "sk"⟩
    (fun _ => SubmitResult.ok) (fun _ => "k") badItem (by decide) (by decide)

/-- C7 counterexample: with one fresh item and one saved item, the merge
puts the fresh item first and the saved item second, so the saved items do
not precede the freshly fetched ones as the claim states. -/
theorem saved_items_follow_cex :
    mergedTracks [itemA] true (some [itemB]) = [itemA, itemB]
    ∧ [itemA, itemB] ≠ ([itemB, itemA] : List PlayedItem) := by
  exact ⟨rfl, by decide⟩

/-- C7 amended: when a run is configured to reuse the spilled tracks file
and it exists, the saved items are appended after the freshly fetched
items, so the new items precede the saved ones in the combined sequence. -/
theorem saved_items_follow_amended (fresh saved : List PlayedItem) :
    mergedTracks fresh true (some saved) = fresh ++ saved := rfl

/-- C8: when the normalized batch is empty the submission loop is skipped
entirely: zero submission attempts, zero re-authorization cycles, the
session key of the config is left unchanged, and the run exits 0. -/
theorem empty_batch_vacuous_success
    (fresh : List PlayedItem) (rem : Bool) (saved : Option (List PlayedItem))
    (auth : LibreAuth) (submit : Nat → SubmitResult) (newKey : Nat → String)
    (hOrg : organizeTracks (mergedTracks fresh rem saved) = some []) :
    mainRun fresh rem saved auth submit newKey
      = MainOutcome.exit0 auth.session_key 0 0 := by
  simp [mainRun, hOrg]

theorem empty_batch_vacuous_success_witness :
    mainRun [] false none ⟨"u", "p", some "sk"⟩
        (fun _ => SubmitResult.otherError) (fun _ => "k")
      = MainOutcome.exit0 (LibreAuth.session_key ⟨"u", "p", some "sk"⟩) 0 0 :=
  empty_batch_vacuous_success [] false none ⟨"u", "p", some "sk"⟩
    (fun _ => SubmitResult.otherError) (fun _ => "k") (by decide)

/-- C9: the normalizer takes only the first element of the artists list,
discarding the rest, and an item whose artists list is empty fails
normalization, which aborts the whole batch with the spill and exit 1. -/
theorem first_artist_only
    (a1 a2 : Artist) (arts : List Artist) (nm : String) (al : Album)
    (tn : Option Int) (dm : Nat) (pa : String) (ts : Int)
    (hts : parsePlayedAt pa = some ts) :
    normalizeTrack ⟨some ⟨some (a1 :: a2 :: arts), some nm, some al, tn, some dm⟩, some pa⟩
      = some ⟨a1.name, nm, al.name, tn, (dm + 999) / 1000, ts⟩
    ∧ (∀ t : TrackObj, t.artists = some [] →
        ∀ pa2 : Option String, normalizeTrack ⟨some t, pa2⟩ = none)
    ∧ (∀ (fresh : List PlayedItem) (rem : Bool) (saved : Option (List PlayedItem))
        (auth : LibreAuth) (submit : Nat → SubmitResult) (newKey : Nat → String)
        (bad : PlayedItem), bad ∈ mergedTracks fresh rem saved →
        normalizeTrack bad = none →
        mainRun fresh rem saved auth submit newKey
          = MainOutcome.exit1Spill (mergedTracks fresh rem saved) 0 0) := by
  refine ⟨?_, ?_, ?_⟩
  · simp [normalizeTrack, hts]
  · intro t ht pa2
    simp [normalizeTrack, ht]
  · intro fresh rem saved auth submit newKey bad hmem hbad
    have hOrg := organizeTracks_none_of_mem _ bad hmem hbad
    simp [mainRun, hOrg]

theorem first_artist_only_witness :
    normalizeTrack ⟨some ⟨some (⟨"A1"⟩ :: ⟨"A2"⟩ :: []), some "T", some ⟨"Al"⟩,
        none, some 215500⟩, some "2023-01-01T00:00:00.000+00:00"⟩
      = some ⟨Artist.name ⟨"A1"⟩, "T", Album.name ⟨"Al"⟩, none, (215500 + 999) / 1000, 1672531200⟩
    ∧ (∀ t : TrackObj, t.artists = some [] →
        ∀ pa2 : Option String, normalizeTrack ⟨some t, pa2⟩ = none)
    ∧ (∀ (fresh : List PlayedItem) (rem : Bool) (saved : Option (List PlayedItem))
        (auth : LibreAuth) (submit : Nat → SubmitResult) (newKey : Nat → String)
        (bad : PlayedItem), bad ∈ mergedTracks fresh rem saved →
        normalizeTrack bad = none →
        mainRun fresh rem saved auth submit newKey
          = MainOutcome.exit1Spill (mergedTracks fresh rem saved) 0 0) :=
  first_artist_only ⟨"A1"⟩ ⟨"A2"⟩ [] "T" ⟨"Al"⟩ none 215500
    "2023-01-01T00:00:00.000+00:00" 1672531200 (by decide)

/-- C10: on the success path the config update reads session_key from the
auth mapping; if the config had no stored session key and the very first
attempt succeeds, the run crashes with an uncaught KeyError after
scrobbling, before persisting the config; and whenever a session key was
initially configured this crash is unreachable. -/
theorem session_key_crash_iff_absent
    (fresh : List PlayedItem) (rem : Bool) (saved : Option (List PlayedItem))
    (auth : LibreAuth) (submit : Nat → SubmitResult) (newKey : Nat → String)
    (tracks : List ScrobbleRecord)
    (hOrg : organizeTracks (mergedTracks fresh rem saved) = some tracks)
    (hNE : tracks ≠ []) :
    (auth.session_key = none → submit 0 = SubmitResult.ok →
      mainRun fresh rem saved auth submit newKey = MainOutcome.keyErrorCrash 1 0)
    ∧ (∀ k0, auth.session_key = some k0 →
      ∀ a r, mainRun fresh rem saved auth submit newKey ≠ MainOutcome.keyErrorCrash a r) := by
  constructor
  · intro hnone hok
    rw [mainRun_eq_loop fresh rem saved auth submit newKey tracks hOrg hNE]
    rw [runLoop_ws_then_ok submit newKey 0 10 0 0 auth (by omega)
      (fun i hi => absurd hi (Nat.not_lt_zero i)) (by simpa using hok)]
    simp [rotatedAuth, hnone]
  · intro k0 hsome a r
    rw [mainRun_eq_loop fresh rem saved auth submit newKey tracks hOrg hNE]
    cases h : runLoop submit newKey 10 0 0 auth with
    | success au a2 r2 =>
      have hs := runLoop_success_key_isSome submit newKey 10 0 0 auth au a2 r2
        (by simp [hsome]) h
      cases hau : au.session_key with
      | none => rw [hau] at hs; simp at hs
      | some k2 => simp [hau]
    | exhausted a2 r2 => simp
    | fatal au a2 r2 => simp

theorem session_key_crash_iff_absent_witness :
    ((⟨"u", "p", none⟩ : LibreAuth).session_key = none →
      (fun _ => SubmitResult.ok) 0 = SubmitResult.ok →
      mainRun [samplePlayedItem] false none ⟨"u", "p", none⟩
        (fun _ => SubmitResult.ok) (fun _ => "k") = MainOutcome.keyErrorCrash 1 0)
    ∧ (∀ k0, (⟨"u", "p", none⟩ : LibreAuth).session_key = some k0 →
      ∀ a r, mainRun [samplePlayedItem] false none ⟨"u", "p", none⟩
        (fun _ => SubmitResult.ok) (fun _ => "k") ≠ MainOutcome.keyErrorCrash a r) :=
  session_key_crash_iff_absent [samplePlayedItem] false none ⟨"u", "p", none⟩
    (fun _ => SubmitResult.ok) (fun _ => "k") [sampleRecord] (by decide) (by decide)
